import Mathlib

/-!
Shallow embedding of the WAV-container builder `addWavHeader` and the
audio-overview orchestration `generateAudio` from `src/hooks/useNotebook.ts`
of the Nexus-LLM repository, together with proofs of the specified
properties.

Modelling conventions:
* A JS `ArrayBuffer` / `Uint8Array` is a `List Nat` of byte values.
* JS `number` arguments that the code treats as integers (`sampleRate`,
  `numChannels`) are modelled as `Int`; `DataView.setUintN` applies the
  ECMAScript `ToUintN` conversion (value mod 2^N), modelled by
  `toUint8` / `toUint16` / `toUint32`.
* Multi-byte stores are little-endian, exactly as the source passes
  `true` for the `littleEndian` argument of every `setUintN` call.
-/

namespace NexusLLM

/-- ECMAScript `ToUint8` applied to an integral `number`: value mod 2^8. -/
def toUint8 (v : Int) : Nat := (v % 256).toNat

/-- ECMAScript `ToUint16` applied to an integral `number`: value mod 2^16. -/
def toUint16 (v : Int) : Nat := (v % 65536).toNat

/-- ECMAScript `ToUint32` applied to an integral `number`: value mod 2^32. -/
def toUint32 (v : Int) : Nat := (v % 4294967296).toNat

/-- `DataView.setUint8(off, v)`: store `ToUint8(v)` at index `off`. -/
def setUint8 (b : List Nat) (off : Nat) (v : Int) : List Nat :=
  b.set off (toUint8 v)

/-- `DataView.setUint16(off, v, true)`: store `ToUint16(v)` little-endian
at indices `off`, `off+1`. -/
def setUint16LE (b : List Nat) (off : Nat) (v : Int) : List Nat :=
  (b.set off (toUint16 v % 256)).set (off + 1) (toUint16 v / 256)

/-- `DataView.setUint32(off, v, true)`: store `ToUint32(v)` little-endian
at indices `off`, …, `off+3`. -/
def setUint32LE (b : List Nat) (off : Nat) (v : Int) : List Nat :=
  ((((b.set off (toUint32 v % 256)).set (off + 1) (toUint32 v / 256 % 256)).set
      (off + 2) (toUint32 v / 65536 % 256)).set
      (off + 3) (toUint32 v / 16777216 % 256))

/-- The loop body of `writeString`: successive `setUint8` stores of a list
of character codes starting at `off`. -/
def writeCodes : List Nat → Nat → List Nat → List Nat
  | b, _, [] => b
  | b, off, c :: cs => writeCodes (b.set off (c % 256)) (off + 1) cs

/-- `writeString(offset, string)` from `addWavHeader`: writes
`string.charCodeAt(i)` (UTF-16 code units, reduced to a byte by
`setUint8`) at `offset + i` for each `i`. -/
def writeString (b : List Nat) (off : Nat) (s : String) : List Nat :=
  writeCodes b off (s.data.map Char.toNat)

/-- `new Uint8Array(buffer, off).set(new Uint8Array(samples))`: verbatim
copy of the byte sequence `vs` into `b` starting at index `off`. -/
def copyBytes : List Nat → Nat → List Nat → List Nat
  | b, _, [] => b
  | b, off, v :: vs => copyBytes (b.set off v) (off + 1) vs

/-- `addWavHeader(samples, sampleRate, numChannels)` from
`src/hooks/useNotebook.ts` (lines 123–150): allocates a zeroed buffer of
`44 + samples.byteLength` bytes, writes the 44-byte RIFF/WAVE header and
copies the samples after it. -/
def addWavHeader (samples : List Nat) (sampleRate numChannels : Int) : List Nat :=
  let buffer := List.replicate (44 + samples.length) 0
  let b0 := writeString buffer 0 "RIFF"
  let b1 := setUint32LE b0 4 (36 + (samples.length : Int))
  let b2 := writeString b1 8 "WAVE"
  let b3 := writeString b2 12 "fmt "
  let b4 := setUint32LE b3 16 16
  let b5 := setUint16LE b4 20 1
  let b6 := setUint16LE b5 22 numChannels
  let b7 := setUint32LE b6 24 sampleRate
  let b8 := setUint32LE b7 28 (sampleRate * numChannels * 2)
  let b9 := setUint16LE b8 32 (numChannels * 2)
  let b10 := setUint16LE b9 34 16
  let b11 := writeString b10 36 "data"
  let b12 := setUint32LE b11 40 (samples.length : Int)
  copyBytes b12 44 samples

/-- Little-endian byte list of a 16-bit value (`w < 2^16` expected). -/
def u16le (w : Nat) : List Nat := [w % 256, w / 256]

/-- Little-endian byte list of a 32-bit value (`w < 2^32` expected). -/
def u32le (w : Nat) : List Nat :=
  [w % 256, w / 256 % 256, w / 65536 % 256, w / 16777216 % 256]

/-- The 44-byte header that `addWavHeader` writes, as an explicit list,
for a samples length `n` and the given rate/channel parameters. -/
def wavHeaderBytes (n : Nat) (sampleRate numChannels : Int) : List Nat :=
  [82, 73, 70, 70] ++ u32le (toUint32 (36 + (n : Int))) ++
  [87, 65, 86, 69] ++ [102, 109, 116, 32] ++
  u32le (toUint32 16) ++ u16le (toUint16 1) ++
  u16le (toUint16 numChannels) ++ u32le (toUint32 sampleRate) ++
  u32le (toUint32 (sampleRate * numChannels * 2)) ++
  u16le (toUint16 (numChannels * 2)) ++ u16le (toUint16 16) ++
  [100, 97, 116, 97] ++ u32le (toUint32 (n : Int))

/-- Reading one byte of a buffer (out-of-range reads as 0). -/
def byteAt (b : List Nat) (i : Nat) : Nat := b.getD i 0

/-- The 16-bit little-endian integer at offset `off`. -/
def readU16LE (b : List Nat) (off : Nat) : Nat :=
  byteAt b off + 256 * byteAt b (off + 1)

/-- The 32-bit little-endian integer at offset `off`. -/
def readU32LE (b : List Nat) (off : Nat) : Nat :=
  byteAt b off + 256 * byteAt b (off + 1) +
  65536 * byteAt b (off + 2) + 16777216 * byteAt b (off + 3)

/-! ### The audio-overview orchestration (`generateAudio`) -/

/-- A notebook source, from the `Source` interface in `types.ts` (the
`'text' | 'file'` union of the `type` field is modelled as a `String`). -/
structure Source where
  id : String
  name : String
  content : String
  mimeType : String
  data : Option String := none
  type : String
  dateAdded : Nat
deriving DecidableEq

/-- The `status` union of the `AudioOverviewState` interface in `types.ts`. -/
inductive AudioStatus
  | idle
  | generating_script
  | synthesizing
  | ready
  | error
deriving DecidableEq

/-- The `AudioOverviewState` interface from `types.ts`. The object URL the
code stores in `audioUrl` (`URL.createObjectURL(new Blob([wavBuffer]))`) is
modelled by the byte content of the blob it refers to. -/
structure AudioOverviewState where
  status : AudioStatus
  audioUrl : Option (List Nat) := none
  script : Option String := none
  error : Option String := none
deriving DecidableEq

/-- The observable effects of one `generateAudio` run, in program order:
the two awaited collaborator calls and each `setAudioOverview` state
update. -/
inductive AudioEvent
  | callGeneratePodcastScript (sources : List Source) (language : String)
  | callSynthesizePodcastAudio (script : String)
  | setAudioOverview (state : AudioOverviewState)
deriving DecidableEq

/-- `generateAudio(language)` from `src/hooks/useNotebook.ts` (lines
88–105), as the ordered trace of its effects. The outcomes of the two
awaited collaborator calls are supplied as `Except` oracles
(`Except.error` = the promise rejected, routed to the single `catch`
block, which sets `{status: 'error', error: 'Failed to generate audio.'}`). -/
def generateAudioTrace (sources : List Source) (language : String)
    (scriptResult : Except String String)
    (synthResult : Except String (List Nat)) : List AudioEvent :=
  if sources.length = 0 then []
  else
    AudioEvent.setAudioOverview
      { status := AudioStatus.generating_script } ::
    AudioEvent.callGeneratePodcastScript sources language ::
    match scriptResult with
    | Except.error _ =>
        [AudioEvent.setAudioOverview
          { status := AudioStatus.error, error := some "Failed to generate audio." }]
    | Except.ok script =>
        AudioEvent.setAudioOverview
          { status := AudioStatus.synthesizing, script := some script } ::
        AudioEvent.callSynthesizePodcastAudio script ::
        match synthResult with
        | Except.error _ =>
            [AudioEvent.setAudioOverview
              { status := AudioStatus.error, error := some "Failed to generate audio." }]
        | Except.ok audioBuffer =>
            [AudioEvent.setAudioOverview
              { status := AudioStatus.ready,
                audioUrl := some (addWavHeader audioBuffer 24000 1),
                script := some script }]

/-- Effect of one trace event on the `audioOverview` React state. -/
def applyEvent (st : AudioOverviewState) : AudioEvent → AudioOverviewState
  | AudioEvent.setAudioOverview s => s
  | _ => st

/-- The `audioOverview` state after a trace has run, starting from `st`. -/
def finalAudioState (st : AudioOverviewState) (t : List AudioEvent) :
    AudioOverviewState :=
  t.foldl applyEvent st

/-- The successive `status` values a trace writes, in order. -/
def audioStatuses (t : List AudioEvent) : List AudioStatus :=
  t.filterMap fun e =>
    match e with
    | AudioEvent.setAudioOverview s => some s.status
    | _ => none

/-- Whether an event is the `generatePodcastScript` request. -/
def isScriptCall : AudioEvent → Bool
  | AudioEvent.callGeneratePodcastScript _ _ => true
  | _ => false

/-- Whether an event is the `synthesizePodcastAudio` request. -/
def isSynthCall : AudioEvent → Bool
  | AudioEvent.callSynthesizePodcastAudio _ => true
  | _ => false

/-- The header-writing pipeline of `addWavHeader` (everything before the
sample copy), factored over an arbitrary starting buffer `b`. -/
def headerOps (n : Nat) (sampleRate numChannels : Int) (b : List Nat) : List Nat :=
  let b0 := writeString b 0 "RIFF"
  let b1 := setUint32LE b0 4 (36 + (n : Int))
  let b2 := writeString b1 8 "WAVE"
  let b3 := writeString b2 12 "fmt "
  let b4 := setUint32LE b3 16 16
  let b5 := setUint16LE b4 20 1
  let b6 := setUint16LE b5 22 numChannels
  let b7 := setUint32LE b6 24 sampleRate
  let b8 := setUint32LE b7 28 (sampleRate * numChannels * 2)
  let b9 := setUint16LE b8 32 (numChannels * 2)
  let b10 := setUint16LE b9 34 16
  let b11 := writeString b10 36 "data"
  setUint32LE b11 40 (n : Int)

theorem addWavHeader_as_ops (samples : List Nat) (sampleRate numChannels : Int) :
    addWavHeader samples sampleRate numChannels =
      copyBytes
        (headerOps samples.length sampleRate numChannels
          (List.replicate (44 + samples.length) 0)) 44 samples := rfl

/-! ### Normal form of `addWavHeader` -/

theorem codes_RIFF : "RIFF".data.map Char.toNat = [82, 73, 70, 70] := by decide

theorem codes_WAVE : "WAVE".data.map Char.toNat = [87, 65, 86, 69] := by decide

theorem codes_fmt : "fmt ".data.map Char.toNat = [102, 109, 116, 32] := by decide

theorem codes_data : "data".data.map Char.toNat = [100, 97, 116, 97] := by decide

@[simp] theorem writeCodes_length (cs : List Nat) :
    ∀ (b : List Nat) (off : Nat), (writeCodes b off cs).length = b.length := by
  induction cs with
  | nil => intro b off; rfl
  | cons c cs ih => intro b off; rw [writeCodes, ih, List.length_set]

@[simp] theorem writeString_length (b : List Nat) (off : Nat) (s : String) :
    (writeString b off s).length = b.length := by
  simp [writeString]

@[simp] theorem setUint16LE_length (b : List Nat) (off : Nat) (v : Int) :
    (setUint16LE b off v).length = b.length := by
  simp [setUint16LE]

@[simp] theorem setUint32LE_length (b : List Nat) (off : Nat) (v : Int) :
    (setUint32LE b off v).length = b.length := by
  simp [setUint32LE]

@[simp] theorem headerOps_length (n : Nat) (sampleRate numChannels : Int)
    (b : List Nat) : (headerOps n sampleRate numChannels b).length = b.length := by
  simp [headerOps]

@[simp] theorem copyBytes_length (vs : List Nat) :
    ∀ (b : List Nat) (off : Nat), (copyBytes b off vs).length = b.length := by
  induction vs with
  | nil => intro b off; rfl
  | cons v vs ih => intro b off; rw [copyBytes, ih, List.length_set]

theorem writeCodes_append (cs : List Nat) :
    ∀ (b₁ b₂ : List Nat) (off : Nat), off + cs.length ≤ b₁.length →
      writeCodes (b₁ ++ b₂) off cs = writeCodes b₁ off cs ++ b₂ := by
  induction cs with
  | nil => intro b₁ b₂ off h; rfl
  | cons c cs ih =>
    intro b₁ b₂ off h
    simp only [List.length_cons] at h
    rw [writeCodes, writeCodes,
      List.set_append_left _ _ (by omega), ih]
    rw [List.length_set]; omega

theorem writeString_append (b₁ b₂ : List Nat) (off : Nat) (s : String)
    (h : off + (s.data.map Char.toNat).length ≤ b₁.length) :
    writeString (b₁ ++ b₂) off s = writeString b₁ off s ++ b₂ := by
  unfold writeString
  exact writeCodes_append _ _ _ _ h

theorem setUint16LE_append (b₁ b₂ : List Nat) (off : Nat) (v : Int)
    (h : off + 1 < b₁.length) :
    setUint16LE (b₁ ++ b₂) off v = setUint16LE b₁ off v ++ b₂ := by
  unfold setUint16LE
  rw [List.set_append_left _ _ (by omega),
      List.set_append_left _ _ (by rw [List.length_set]; omega)]

theorem setUint32LE_append (b₁ b₂ : List Nat) (off : Nat) (v : Int)
    (h : off + 3 < b₁.length) :
    setUint32LE (b₁ ++ b₂) off v = setUint32LE b₁ off v ++ b₂ := by
  unfold setUint32LE
  rw [List.set_append_left _ _ (by omega),
      List.set_append_left _ _ (by rw [List.length_set]; omega),
      List.set_append_left _ _ (by rw [List.length_set, List.length_set]; omega),
      List.set_append_left _ _
        (by rw [List.length_set, List.length_set, List.length_set]; omega)]

theorem headerOps_append (n : Nat) (sampleRate numChannels : Int)
    (b₁ b₂ : List Nat) (h : 44 ≤ b₁.length) :
    headerOps n sampleRate numChannels (b₁ ++ b₂) =
      headerOps n sampleRate numChannels b₁ ++ b₂ := by
  simp only [headerOps]
  rw [writeString_append _ _ _ _ (by rw [codes_RIFF]; simpa using by omega),
      setUint32LE_append _ _ _ _ (by simp; omega),
      writeString_append _ _ _ _ (by rw [codes_WAVE]; simp; omega),
      writeString_append _ _ _ _ (by rw [codes_fmt]; simp; omega),
      setUint32LE_append _ _ _ _ (by simp; omega),
      setUint16LE_append _ _ _ _ (by simp; omega),
      setUint16LE_append _ _ _ _ (by simp; omega),
      setUint32LE_append _ _ _ _ (by simp; omega),
      setUint32LE_append _ _ _ _ (by simp; omega),
      setUint16LE_append _ _ _ _ (by simp; omega),
      setUint16LE_append _ _ _ _ (by simp; omega),
      writeString_append _ _ _ _ (by rw [codes_data]; simp; omega),
      setUint32LE_append _ _ _ _ (by simp; omega)]

set_option maxHeartbeats 1600000 in
theorem headerOps_replicate (n : Nat) (sampleRate numChannels : Int) :
    headerOps n sampleRate numChannels (List.replicate 44 0) =
      wavHeaderBytes n sampleRate numChannels := by
  simp only [headerOps, writeString, codes_RIFF, codes_WAVE, codes_fmt, codes_data,
    writeCodes]
  simp [setUint16LE, setUint32LE, wavHeaderBytes, u16le, u32le, List.replicate_succ]

theorem copyBytes_append (vs : List Nat) :
    ∀ (b₁ t : List Nat), t.length = vs.length →
      copyBytes (b₁ ++ t) b₁.length vs = b₁ ++ vs := by
  induction vs with
  | nil =>
    intro b₁ t h
    simp [copyBytes, List.eq_nil_of_length_eq_zero h]
  | cons v vs ih =>
    intro b₁ t h
    match t with
    | u :: us =>
      have hset : (b₁ ++ u :: us).set b₁.length v = (b₁ ++ [v]) ++ us := by
        rw [List.set_append_right _ _ (Nat.le_refl _)]
        simp
      have hlen : (b₁ ++ [v]).length = b₁.length + 1 := by simp
      calc copyBytes (b₁ ++ u :: us) b₁.length (v :: vs)
          = copyBytes ((b₁ ++ [v]) ++ us) (b₁.length + 1) vs := by
            rw [copyBytes, hset]
        _ = copyBytes ((b₁ ++ [v]) ++ us) (b₁ ++ [v]).length vs := by rw [hlen]
        _ = (b₁ ++ [v]) ++ vs := by
            apply ih
            simpa using h
        _ = b₁ ++ v :: vs := by simp

theorem copyBytes_append' (vs b₁ t : List Nat) (off : Nat)
    (h₁ : b₁.length = off) (h₂ : t.length = vs.length) :
    copyBytes (b₁ ++ t) off vs = b₁ ++ vs := by
  subst h₁; exact copyBytes_append vs b₁ t h₂

theorem addWavHeader_eq (samples : List Nat) (sampleRate numChannels : Int) :
    addWavHeader samples sampleRate numChannels =
      wavHeaderBytes samples.length sampleRate numChannels ++ samples := by
  rw [addWavHeader_as_ops, List.replicate_add,
    headerOps_append _ _ _ _ _ (by simp),
    copyBytes_append' _ _ _ _ (by simp) (by simp),
    headerOps_replicate]

/-! ### Bounds and conversions for the `ToUintN` operations -/

theorem toUint16_lt (v : Int) : toUint16 v < 65536 := by
  unfold toUint16
  have h1 : 0 ≤ v % 65536 := Int.emod_nonneg v (by norm_num)
  have h2 : v % 65536 < 65536 := Int.emod_lt_of_pos v (by norm_num)
  omega

theorem toUint32_lt (v : Int) : toUint32 v < 4294967296 := by
  unfold toUint32
  have h1 : 0 ≤ v % 4294967296 := Int.emod_nonneg v (by norm_num)
  have h2 : v % 4294967296 < 4294967296 := Int.emod_lt_of_pos v (by norm_num)
  omega

theorem toUint16_ofNat (m : Nat) : toUint16 (m : Int) = m % 65536 := by
  unfold toUint16
  omega

theorem toUint32_ofNat (m : Nat) : toUint32 (m : Int) = m % 4294967296 := by
  unfold toUint32
  omega

theorem toUint16_of_lt (v : Int) (h₁ : 0 ≤ v) (h₂ : v < 65536) :
    (toUint16 v : Int) = v := by
  unfold toUint16
  omega

theorem toUint32_of_lt (v : Int) (h₁ : 0 ≤ v) (h₂ : v < 4294967296) :
    (toUint32 v : Int) = v := by
  unfold toUint32
  omega

/-! ### Reading the header fields back -/

@[simp] theorem wavHeaderBytes_length (n : Nat) (sampleRate numChannels : Int) :
    (wavHeaderBytes n sampleRate numChannels).length = 44 := by
  simp [wavHeaderBytes, u16le, u32le]

theorem wav_length (samples : List Nat) (sampleRate numChannels : Int) :
    (addWavHeader samples sampleRate numChannels).length = 44 + samples.length := by
  simp [addWavHeader_as_ops]

theorem wav_drop44 (samples : List Nat) (sampleRate numChannels : Int) :
    (addWavHeader samples sampleRate numChannels).drop 44 = samples := by
  rw [addWavHeader_eq]
  exact List.drop_left' (wavHeaderBytes_length _ _ _)

theorem wav_take4 (samples : List Nat) (sampleRate numChannels : Int) :
    (addWavHeader samples sampleRate numChannels).take 4 = [82, 73, 70, 70] := by
  rw [addWavHeader_eq]
  simp [wavHeaderBytes, u16le, u32le]

theorem wav_slice8 (samples : List Nat) (sampleRate numChannels : Int) :
    ((addWavHeader samples sampleRate numChannels).drop 8).take 4 =
      [87, 65, 86, 69] := by
  rw [addWavHeader_eq]
  simp [wavHeaderBytes, u16le, u32le]

theorem wav_slice12 (samples : List Nat) (sampleRate numChannels : Int) :
    ((addWavHeader samples sampleRate numChannels).drop 12).take 4 =
      [102, 109, 116, 32] := by
  rw [addWavHeader_eq]
  simp [wavHeaderBytes, u16le, u32le]

theorem wav_slice36 (samples : List Nat) (sampleRate numChannels : Int) :
    ((addWavHeader samples sampleRate numChannels).drop 36).take 4 =
      [100, 97, 116, 97] := by
  rw [addWavHeader_eq]
  simp [wavHeaderBytes, u16le, u32le]

theorem wav_field4 (samples : List Nat) (sampleRate numChannels : Int) :
    readU32LE (addWavHeader samples sampleRate numChannels) 4 =
      toUint32 (36 + (samples.length : Int)) := by
  rw [addWavHeader_eq]
  have := toUint32_lt (36 + (samples.length : Int))
  simp [readU32LE, byteAt, wavHeaderBytes, u16le, u32le]
  omega

theorem wav_field16 (samples : List Nat) (sampleRate numChannels : Int) :
    readU32LE (addWavHeader samples sampleRate numChannels) 16 = 16 := by
  rw [addWavHeader_eq]
  simp [readU32LE, byteAt, wavHeaderBytes, u16le, u32le]
  decide

theorem wav_field20 (samples : List Nat) (sampleRate numChannels : Int) :
    readU16LE (addWavHeader samples sampleRate numChannels) 20 = 1 := by
  rw [addWavHeader_eq]
  simp [readU16LE, byteAt, wavHeaderBytes, u16le, u32le]
  decide

theorem wav_field22 (samples : List Nat) (sampleRate numChannels : Int) :
    readU16LE (addWavHeader samples sampleRate numChannels) 22 =
      toUint16 numChannels := by
  rw [addWavHeader_eq]
  simp [readU16LE, byteAt, wavHeaderBytes, u16le, u32le]
  omega

theorem wav_field24 (samples : List Nat) (sampleRate numChannels : Int) :
    readU32LE (addWavHeader samples sampleRate numChannels) 24 =
      toUint32 sampleRate := by
  rw [addWavHeader_eq]
  have := toUint32_lt sampleRate
  simp [readU32LE, byteAt, wavHeaderBytes, u16le, u32le]
  omega

theorem wav_field28 (samples : List Nat) (sampleRate numChannels : Int) :
    readU32LE (addWavHeader samples sampleRate numChannels) 28 =
      toUint32 (sampleRate * numChannels * 2) := by
  rw [addWavHeader_eq]
  have := toUint32_lt (sampleRate * numChannels * 2)
  simp [readU32LE, byteAt, wavHeaderBytes, u16le, u32le]
  omega

theorem wav_field32 (samples : List Nat) (sampleRate numChannels : Int) :
    readU16LE (addWavHeader samples sampleRate numChannels) 32 =
      toUint16 (numChannels * 2) := by
  rw [addWavHeader_eq]
  simp [readU16LE, byteAt, wavHeaderBytes, u16le, u32le]
  omega

theorem wav_field34 (samples : List Nat) (sampleRate numChannels : Int) :
    readU16LE (addWavHeader samples sampleRate numChannels) 34 = 16 := by
  rw [addWavHeader_eq]
  simp [readU16LE, byteAt, wavHeaderBytes, u16le, u32le]
  decide

theorem wav_field40 (samples : List Nat) (sampleRate numChannels : Int) :
    readU32LE (addWavHeader samples sampleRate numChannels) 40 =
      toUint32 (samples.length : Int) := by
  rw [addWavHeader_eq]
  have := toUint32_lt (samples.length : Int)
  simp [readU32LE, byteAt, wavHeaderBytes, u16le, u32le]
  omega

/-! ### Claims about the WAV builder -/

/-- C1: for every samples buffer, every sampleRate > 0 and every
numChannels > 0, the buffer returned by `addWavHeader` has byte length
exactly `44 + samples.length`. -/
theorem wav_output_length (samples : List Nat) (sampleRate numChannels : Int)
    (_h₁ : 0 < sampleRate) (_h₂ : 0 < numChannels) :
    (addWavHeader samples sampleRate numChannels).length = 44 + samples.length :=
  wav_length samples sampleRate numChannels

/-- Witness for C1 at `samples = [1,0,2,0]`, `sampleRate = 24000`,
`numChannels = 1` (the spec's concrete scenario: output length 48). -/
theorem wav_output_length_witness :
    (0 : Int) < 24000 ∧ (0 : Int) < 1 ∧
      (addWavHeader [1, 0, 2, 0] 24000 1).length = 44 + [1, 0, 2, 0].length :=
  ⟨by decide, by decide,
    wav_output_length [1, 0, 2, 0] 24000 1 (by decide) (by decide)⟩

/-- C2 (amended): whenever `samples.length + 36 < 2^32`, the 32-bit
little-endian integer at offset 4 equals `36 + samples.length` and the one
at offset 40 equals `samples.length`. For larger buffers both fields hold
the value reduced mod 2^32, so the claim fails as stated (see the
counterexample). -/
theorem wav_declared_sizes (samples : List Nat) (sampleRate numChannels : Int)
    (h : samples.length + 36 < 4294967296) :
    readU32LE (addWavHeader samples sampleRate numChannels) 4 =
        36 + samples.length ∧
      readU32LE (addWavHeader samples sampleRate numChannels) 40 =
        samples.length := by
  rw [wav_field4, wav_field40]
  have h4 : (36 + (samples.length : Int)) = ((36 + samples.length : Nat) : Int) := by
    push_cast
    ring
  rw [h4, toUint32_ofNat, toUint32_ofNat]
  constructor
  · omega
  · omega

/-- Witness for C2 at the spec's concrete scenario (`[1,0,2,0]`,
24000 Hz, mono): offset-4 field 40, offset-40 field 4. -/
theorem wav_declared_sizes_witness :
    [1, 0, 2, 0].length + 36 < 4294967296 ∧
      (readU32LE (addWavHeader [1, 0, 2, 0] 24000 1) 4 = 36 + [1, 0, 2, 0].length ∧
       readU32LE (addWavHeader [1, 0, 2, 0] 24000 1) 40 = [1, 0, 2, 0].length) :=
  ⟨by decide, wav_declared_sizes [1, 0, 2, 0] 24000 1 (by decide)⟩

/-- Counterexample to C2 as stated: for a samples buffer of
`2^32 - 36 = 4294967260` bytes (admissible, since the builder accepts every
buffer and never checks its size), the 32-bit field at offset 4 wraps
around to 0 and no longer equals `36 + samples.length`. -/
theorem wav_declared_sizes_cex :
    ¬ (readU32LE (addWavHeader (List.replicate 4294967260 0) 24000 1) 4 =
          36 + (List.replicate 4294967260 0).length ∧
        readU32LE (addWavHeader (List.replicate 4294967260 0) 24000 1) 40 =
          (List.replicate 4294967260 0).length) := by
  intro h
  have h4 := h.1
  rw [wav_field4, List.length_replicate] at h4
  have hz : toUint32 (36 + ((4294967260 : Nat) : Int)) = 0 := by decide
  rw [hz] at h4
  exact absurd h4 (by decide)

/-- C3: for every input, bytes [0,4) of the output are ASCII "RIFF",
bytes [8,12) are "WAVE", bytes [12,16) are "fmt " and bytes [36,40) are
"data". -/
theorem wav_magic_bytes (samples : List Nat) (sampleRate numChannels : Int) :
    (addWavHeader samples sampleRate numChannels).take 4 =
        "RIFF".data.map Char.toNat ∧
      ((addWavHeader samples sampleRate numChannels).drop 8).take 4 =
        "WAVE".data.map Char.toNat ∧
      ((addWavHeader samples sampleRate numChannels).drop 12).take 4 =
        "fmt ".data.map Char.toNat ∧
      ((addWavHeader samples sampleRate numChannels).drop 36).take 4 =
        "data".data.map Char.toNat := by
  rw [codes_RIFF, codes_WAVE, codes_fmt, codes_data]
  exact ⟨wav_take4 _ _ _, wav_slice8 _ _ _, wav_slice12 _ _ _, wav_slice36 _ _ _⟩

/-- C4 (amended): the format fields hold the claimed values provided they
fit their width — `numChannels * 2 < 2^16`, `sampleRate < 2^32` and
`sampleRate * numChannels * 2 < 2^32`. Without an upper bound the claim
fails: `DataView.setUint16`/`setUint32` store the value mod 2^16 / 2^32
(see the counterexample at `numChannels = 2^16`). -/
theorem wav_format_fields (samples : List Nat) (sampleRate numChannels : Int)
    (h₁ : 0 < sampleRate) (h₂ : 0 < numChannels)
    (h₃ : numChannels * 2 < 65536) (h₄ : sampleRate < 4294967296)
    (h₅ : sampleRate * numChannels * 2 < 4294967296) :
    readU32LE (addWavHeader samples sampleRate numChannels) 16 = 16 ∧
      readU16LE (addWavHeader samples sampleRate numChannels) 20 = 1 ∧
      (readU16LE (addWavHeader samples sampleRate numChannels) 22 : Int) =
        numChannels ∧
      (readU32LE (addWavHeader samples sampleRate numChannels) 24 : Int) =
        sampleRate ∧
      (readU32LE (addWavHeader samples sampleRate numChannels) 28 : Int) =
        sampleRate * numChannels * 2 ∧
      (readU16LE (addWavHeader samples sampleRate numChannels) 32 : Int) =
        numChannels * 2 ∧
      readU16LE (addWavHeader samples sampleRate numChannels) 34 = 16 := by
  have hprod : 0 ≤ sampleRate * numChannels * 2 :=
    mul_nonneg (mul_nonneg h₁.le h₂.le) (by norm_num)
  refine ⟨wav_field16 _ _ _, wav_field20 _ _ _, ?_, ?_, ?_, ?_, wav_field34 _ _ _⟩
  · rw [wav_field22]
    exact toUint16_of_lt _ h₂.le (by omega)
  · rw [wav_field24]
    exact toUint32_of_lt _ h₁.le h₄
  · rw [wav_field28]
    exact toUint32_of_lt _ hprod h₅
  · rw [wav_field32]
    exact toUint16_of_lt _ (by omega) h₃

/-- Witness for C4 at the application's parameters 24000 Hz mono. -/
theorem wav_format_fields_witness :
    (0 : Int) < 24000 ∧ (0 : Int) < 1 ∧
      ((readU32LE (addWavHeader [1, 0, 2, 0] 24000 1) 24 : Int) = 24000 ∧
       (readU32LE (addWavHeader [1, 0, 2, 0] 24000 1) 28 : Int) = 24000 * 1 * 2) := by
  refine ⟨by decide, by decide, ?_, ?_⟩
  · exact (wav_format_fields [1, 0, 2, 0] 24000 1 (by decide) (by decide)
      (by decide) (by decide) (by decide)).2.2.2.1
  · exact (wav_format_fields [1, 0, 2, 0] 24000 1 (by decide) (by decide)
      (by decide) (by decide) (by decide)).2.2.2.2.1

/-- Counterexample to C4 as stated: with `numChannels = 65536 = 2^16`
(positive, no upper bound is claimed), the 16-bit field at offset 22 wraps
to 0 instead of holding `numChannels`. -/
theorem wav_format_fields_cex :
    (0 : Int) < 24000 ∧ (0 : Int) < 65536 ∧
      (readU16LE (addWavHeader [] 24000 65536) 22 : Int) ≠ 65536 := by
  decide

/-- C5: bytes [44, 44 + samples.length) of the output equal the input
samples byte-for-byte; in this pure embedding the input list is untouched
by construction, so extracting the payload recovers the input exactly. -/
theorem wav_payload_roundtrip (samples : List Nat) (sampleRate numChannels : Int) :
    (addWavHeader samples sampleRate numChannels).drop 44 = samples :=
  wav_drop44 samples sampleRate numChannels

/-- C6: the builder is deterministic — two calls whose three arguments are
byte-identical (even if the sample buffers are distinct list expressions)
return byte-identical buffers; the result depends on nothing but the three
arguments, `addWavHeader` being a pure function of them. -/
theorem addWavHeader_deterministic (s₁ s₂ : List Nat) (sr₁ sr₂ nc₁ nc₂ : Int)
    (hs : s₁ = s₂) (hr : sr₁ = sr₂) (hc : nc₁ = nc₂) :
    addWavHeader s₁ sr₁ nc₁ = addWavHeader s₂ sr₂ nc₂ := by
  rw [hs, hr, hc]

/-- Witness for C6 at two byte-identical four-byte buffers. -/
theorem addWavHeader_deterministic_witness :
    ([1, 0, 2, 0] : List Nat) = [1, 0, 2, 0] ∧
      addWavHeader [1, 0, 2, 0] 24000 1 = addWavHeader [1, 0, 2, 0] 24000 1 :=
  ⟨by decide,
    addWavHeader_deterministic [1, 0, 2, 0] [1, 0, 2, 0] 24000 24000 1 1
      rfl rfl rfl⟩

/-- C7: the builder defines no error conditions — it is a total function,
and for empty samples and arbitrary `sampleRate` and `numChannels`
(including zero and negative values) it returns a 44-byte header-only
buffer whose offset-4 field is 36 and whose offset-40 field is 0. -/
theorem addWavHeader_total_empty (sampleRate numChannels : Int) :
    (addWavHeader [] sampleRate numChannels).length = 44 ∧
      readU32LE (addWavHeader [] sampleRate numChannels) 4 = 36 ∧
      readU32LE (addWavHeader [] sampleRate numChannels) 40 = 0 := by
  refine ⟨by simpa using wav_length [] sampleRate numChannels, ?_, ?_⟩
  · rw [wav_field4]
    decide
  · rw [wav_field40]
    decide

/-! ### Claims about the orchestration -/

/-- C8: in `generateAudio`, script generation completes before synthesis is
requested — a `synthesizePodcastAudio` call occurs only when
`generatePodcastScript` returned successfully, and strictly after that
request; the written statuses pass through `generating_script`, then
`synthesizing`, then `ready`; on any failure the final status is `error`;
and neither request is ever issued more than once (no retry). -/
theorem generateAudio_sequencing (sources : List Source) (language : String)
    (scriptResult : Except String String) (synthResult : Except String (List Nat))
    (hs : sources ≠ []) :
    (∀ script,
        AudioEvent.callSynthesizePodcastAudio script ∈
          generateAudioTrace sources language scriptResult synthResult →
        scriptResult = Except.ok script ∧
          List.Sublist
            [AudioEvent.callGeneratePodcastScript sources language,
             AudioEvent.callSynthesizePodcastAudio script]
            (generateAudioTrace sources language scriptResult synthResult)) ∧
      (audioStatuses (generateAudioTrace sources language scriptResult synthResult) =
          [AudioStatus.generating_script, AudioStatus.error] ∨
       audioStatuses (generateAudioTrace sources language scriptResult synthResult) =
          [AudioStatus.generating_script, AudioStatus.synthesizing,
           AudioStatus.error] ∨
       audioStatuses (generateAudioTrace sources language scriptResult synthResult) =
          [AudioStatus.generating_script, AudioStatus.synthesizing,
           AudioStatus.ready]) ∧
      (generateAudioTrace sources language scriptResult synthResult).countP
          isScriptCall ≤ 1 ∧
      (generateAudioTrace sources language scriptResult synthResult).countP
          isSynthCall ≤ 1 ∧
      ((scriptResult.isOk = false ∨ synthResult.isOk = false) →
        (audioStatuses
            (generateAudioTrace sources language scriptResult synthResult)).getLast? =
          some AudioStatus.error) := by
  have hlen : ¬ sources.length = 0 := by
    intro h
    exact hs (List.length_eq_zero.mp h)
  simp only [generateAudioTrace, if_neg hlen]
  cases scriptResult with
  | error e =>
    refine ⟨?_, ?_, ?_, ?_, ?_⟩
    · intro script hmem
      simp at hmem
    · left
      simp [audioStatuses]
    · simp [List.countP_cons, List.countP_nil, isScriptCall]
    · simp [List.countP_cons, List.countP_nil, isSynthCall]
    · intro hfail
      simp [audioStatuses]
  | ok script =>
    cases synthResult with
    | error e =>
      refine ⟨?_, ?_, ?_, ?_, ?_⟩
      · intro s hmem
        simp at hmem
        subst hmem
        exact ⟨rfl, .cons _ (.cons₂ _ (.cons _ (.cons₂ _ (List.nil_sublist _))))⟩
      · right
        left
        simp [audioStatuses]
      · simp [List.countP_cons, List.countP_nil, isScriptCall, isSynthCall]
      · simp [List.countP_cons, List.countP_nil, isScriptCall, isSynthCall]
      · intro hfail
        simp [audioStatuses]
    | ok audioBuffer =>
      refine ⟨?_, ?_, ?_, ?_, ?_⟩
      · intro s hmem
        simp at hmem
        subst hmem
        exact ⟨rfl, .cons _ (.cons₂ _ (.cons _ (.cons₂ _ (List.nil_sublist _))))⟩
      · right
        right
        simp [audioStatuses]
      · simp [List.countP_cons, List.countP_nil, isScriptCall, isSynthCall]
      · simp [List.countP_cons, List.countP_nil, isScriptCall, isSynthCall]
      · intro hfail
        simp [Except.isOk, Except.toBool] at hfail

/-- Witness for C8: one source, a successful script and a successful
synthesis. -/
theorem generateAudio_sequencing_witness :
    ([⟨"s1", "doc", "text", "text/plain", none, "text", 0⟩] : List Source) ≠ [] ∧
      ((∀ script,
          AudioEvent.callSynthesizePodcastAudio script ∈
            generateAudioTrace [⟨"s1", "doc", "text", "text/plain", none, "text", 0⟩]
              "English" (Except.ok "Alex: hi") (Except.ok [1, 0]) →
          (Except.ok "Alex: hi" : Except String String) = Except.ok script ∧
            List.Sublist
              [AudioEvent.callGeneratePodcastScript
                 [⟨"s1", "doc", "text", "text/plain", none, "text", 0⟩] "English",
               AudioEvent.callSynthesizePodcastAudio script]
              (generateAudioTrace [⟨"s1", "doc", "text", "text/plain", none, "text", 0⟩]
                "English" (Except.ok "Alex: hi") (Except.ok [1, 0]))) ∧
        (audioStatuses
            (generateAudioTrace [⟨"s1", "doc", "text", "text/plain", none, "text", 0⟩]
              "English" (Except.ok "Alex: hi") (Except.ok [1, 0])) =
            [AudioStatus.generating_script, AudioStatus.error] ∨
         audioStatuses
            (generateAudioTrace [⟨"s1", "doc", "text", "text/plain", none, "text", 0⟩]
              "English" (Except.ok "Alex: hi") (Except.ok [1, 0])) =
            [AudioStatus.generating_script, AudioStatus.synthesizing,
             AudioStatus.error] ∨
         audioStatuses
            (generateAudioTrace [⟨"s1", "doc", "text", "text/plain", none, "text", 0⟩]
              "English" (Except.ok "Alex: hi") (Except.ok [1, 0])) =
            [AudioStatus.generating_script, AudioStatus.synthesizing,
             AudioStatus.ready]) ∧
        (generateAudioTrace [⟨"s1", "doc", "text", "text/plain", none, "text", 0⟩]
            "English" (Except.ok "Alex: hi") (Except.ok [1, 0])).countP
            isScriptCall ≤ 1 ∧
        (generateAudioTrace [⟨"s1", "doc", "text", "text/plain", none, "text", 0⟩]
            "English" (Except.ok "Alex: hi") (Except.ok [1, 0])).countP
            isSynthCall ≤ 1 ∧
        (((Except.ok "Alex: hi" : Except String String).isOk = false ∨
            (Except.ok [1, 0] : Except String (List Nat)).isOk = false) →
          (audioStatuses
              (generateAudioTrace [⟨"s1", "doc", "text", "text/plain", none, "text", 0⟩]
                "English" (Except.ok "Alex: hi") (Except.ok [1, 0]))).getLast? =
            some AudioStatus.error)) := by
  constructor
  · simp
  · exact generateAudio_sequencing
      [⟨"s1", "doc", "text", "text/plain", none, "text", 0⟩]
      "English" (Except.ok "Alex: hi") (Except.ok [1, 0]) (by simp)

/-- C9: with an empty sources list, `generateAudio` returns at once — no
collaborator call, no `setAudioOverview` — so every prior audio-overview
state is left unchanged. -/
theorem generateAudio_empty_noop (sources : List Source) (language : String)
    (scriptResult : Except String String) (synthResult : Except String (List Nat))
    (h : sources = []) :
    generateAudioTrace sources language scriptResult synthResult = [] ∧
      ∀ prev : AudioOverviewState,
        finalAudioState prev
            (generateAudioTrace sources language scriptResult synthResult) =
          prev := by
  subst h
  refine ⟨rfl, fun prev => rfl⟩

/-- Witness for C9: empty sources, idle prior state. -/
theorem generateAudio_empty_noop_witness :
    generateAudioTrace [] "English" (Except.ok "x") (Except.ok [1]) = [] ∧
      finalAudioState { status := AudioStatus.idle }
          (generateAudioTrace [] "English" (Except.ok "x") (Except.ok [1])) =
        { status := AudioStatus.idle } :=
  ⟨(generateAudio_empty_noop [] "English" (Except.ok "x") (Except.ok [1]) rfl).1,
   (generateAudio_empty_noop [] "English" (Except.ok "x") (Except.ok [1]) rfl).2
     { status := AudioStatus.idle }⟩

/-- C10: every WAV buffer `generateAudio` produces is built as
`addWavHeader audioBuffer 24000 1`, whatever buffer the speech-synthesis
collaborator returned: the `ready` state carries exactly that buffer, and
its header declares mono (offset 22 = 1), 24000 Hz (offset 24), ByteRate
48000 (offset 28) and BlockAlign 2 (offset 32). -/
theorem generateAudio_fixed_params (sources : List Source) (language : String)
    (script : String) (audioBuffer : List Nat) (hs : sources ≠ []) :
    AudioEvent.setAudioOverview
        { status := AudioStatus.ready,
          audioUrl := some (addWavHeader audioBuffer 24000 1),
          script := some script } ∈
      generateAudioTrace sources language (Except.ok script)
        (Except.ok audioBuffer) ∧
      readU16LE (addWavHeader audioBuffer 24000 1) 22 = 1 ∧
      readU32LE (addWavHeader audioBuffer 24000 1) 24 = 24000 ∧
      readU32LE (addWavHeader audioBuffer 24000 1) 28 = 48000 ∧
      readU16LE (addWavHeader audioBuffer 24000 1) 32 = 2 := by
  have hlen : ¬ sources.length = 0 := by
    intro h
    exact hs (List.length_eq_zero.mp h)
  refine ⟨?_, ?_, ?_, ?_, ?_⟩
  · simp [generateAudioTrace, if_neg hlen, hs]
  · rw [wav_field22]
    decide
  · rw [wav_field24]
    decide
  · rw [wav_field28]
    decide
  · rw [wav_field32]
    decide

/-- Witness for C10: a two-byte synthesized buffer. -/
theorem generateAudio_fixed_params_witness :
    ([⟨"s1", "doc", "text", "text/plain", none, "text", 0⟩] : List Source) ≠ [] ∧
      (AudioEvent.setAudioOverview
          { status := AudioStatus.ready,
            audioUrl := some (addWavHeader [1, 0] 24000 1),
            script := some "Alex: hi" } ∈
        generateAudioTrace [⟨"s1", "doc", "text", "text/plain", none, "text", 0⟩]
          "English" (Except.ok "Alex: hi") (Except.ok [1, 0]) ∧
        readU16LE (addWavHeader [1, 0] 24000 1) 22 = 1 ∧
        readU32LE (addWavHeader [1, 0] 24000 1) 24 = 24000 ∧
        readU32LE (addWavHeader [1, 0] 24000 1) 28 = 48000 ∧
        readU16LE (addWavHeader [1, 0] 24000 1) 32 = 2) :=
  ⟨by simp,
   generateAudio_fixed_params
     [⟨"s1", "doc", "text", "text/plain", none, "text", 0⟩]
     "English" "Alex: hi" [1, 0] (by simp)⟩

/-- Concrete scenario from the spec: 4 sample bytes `[1,0,2,0]`, 24000 Hz,
mono — length 48, offset-4 field 40, offset-40 field 4, offset-24 field
24000, offset-28 field 48000, offset-32 field 2, payload recovered. -/
theorem spec_scenario_four_bytes :
    (addWavHeader [1, 0, 2, 0] 24000 1).length = 48 ∧
      readU32LE (addWavHeader [1, 0, 2, 0] 24000 1) 4 = 40 ∧
      readU32LE (addWavHeader [1, 0, 2, 0] 24000 1) 40 = 4 ∧
      readU32LE (addWavHeader [1, 0, 2, 0] 24000 1) 24 = 24000 ∧
      readU32LE (addWavHeader [1, 0, 2, 0] 24000 1) 28 = 48000 ∧
      readU16LE (addWavHeader [1, 0, 2, 0] 24000 1) 32 = 2 ∧
      (addWavHeader [1, 0, 2, 0] 24000 1).drop 44 = [1, 0, 2, 0] := by
  decide

/-- Concrete scenario from the spec: empty samples, 16000 Hz, stereo —
header-only 44-byte output, offset-4 field 36, offset-40 field 0. -/
theorem spec_scenario_empty :
    (addWavHeader [] 16000 2).length = 44 ∧
      readU32LE (addWavHeader [] 16000 2) 4 = 36 ∧
      readU32LE (addWavHeader [] 16000 2) 40 = 0 := by
  decide

end NexusLLM
